import Mathlib

/-!
Shallow embedding of `Source/SignalR/Private/Connection.cpp` (FConnection):
the SignalR-Core negotiate handshake client. JSON values mirror Unreal's
`FJsonValue`/`FJsonObject`; an object is an association list of fields with
distinct keys (Unreal stores them in a `TMap`). The negotiate-response
handler `onNegotiateResponse` mirrors `FConnection::OnNegotiateResponse`
line by line; its result records which state the handler would leave behind:
the connection identifier stored (if any assignment ran) and the websocket
construction request issued by `FConnection::StartWebSocket` (if reached).
-/

set_option autoImplicit false

namespace SignalR

/-- JSON values, mirroring Unreal's `EJson` variants used by the source
(`Null`, `Boolean`, `Number`, `String`, `Array`, `Object`). -/
inductive Json where
  | null : Json
  | boolean : Bool → Json
  | number : Int → Json
  | str : String → Json
  | arr : List Json → Json
  | obj : List (String × Json) → Json

/-- Fields of a JSON object, as deserialized into `FJsonObject::Values`. -/
abbrev Jobj := List (String × Json)

/-- Look up a field by name (first match; Unreal's `TMap` keys are unique). -/
def getField : Jobj → String → Option Json
  | [], _ => none
  | (k, v) :: rest, name => if k == name then some v else getField rest name

/-- Mirrors `FJsonObject::HasField`: the field exists, of any type. -/
def hasField (o : Jobj) (name : String) : Bool :=
  (getField o name).isSome

/-- Mirrors `FJsonObject::HasTypedField<EJson::String>`. -/
def hasTypedFieldString (o : Jobj) (name : String) : Bool :=
  match getField o name with
  | some (Json.str _) => true
  | _ => false

/-- Mirrors `FJsonObject::HasTypedField<EJson::Array>`. -/
def hasTypedFieldArray (o : Jobj) (name : String) : Bool :=
  match getField o name with
  | some (Json.arr _) => true
  | _ => false

/-- Mirrors `FJsonObject::GetStringField`: the value when the field is a
string, the empty string otherwise (Unreal logs and returns `""`). -/
def getStringField (o : Jobj) (name : String) : String :=
  match getField o name with
  | some (Json.str s) => s
  | _ => ""

/-- Mirrors `FJsonObject::GetArrayField`: the elements when the field is an
array, empty otherwise. -/
def getArrayField (o : Jobj) (name : String) : List Json :=
  match getField o name with
  | some (Json.arr xs) => xs
  | _ => []

/-- Mirrors the inner loop of the `availableTransports` scan (Connection.cpp
lines 128-134): a `transferFormats` element counts when it is the JSON
string `"Text"`. -/
def transferFormatIsText : Json → Bool
  | Json.str s => s == "Text"
  | _ => false

/-- Mirrors the per-entry test of the `availableTransports` scan
(Connection.cpp lines 123-135): the entry is an object whose `transport`
string field equals `"WebSockets"` and whose `transferFormats` array
contains the string `"Text"`. -/
def transportEntryCompatible : Json → Bool
  | Json.obj t =>
      hasTypedFieldString t "transport" &&
      getStringField t "transport" == "WebSockets" &&
      hasTypedFieldArray t "transferFormats" &&
      (getArrayField t "transferFormats").any transferFormatIsText
  | _ => false

/-- Mirrors the `bIsCompatible` accumulation over the `availableTransports`
array (Connection.cpp lines 120-137). -/
def availableTransportsCompatible (entries : List Json) : Bool :=
  entries.any transportEntryCompatible

/-- The websocket construction request issued by `FConnection::StartWebSocket`
via `FWebSocketsModule::Get().CreateWebSocket(url, protocol, headers)`. -/
structure FWebSocket where
  url : String
  protocol : String
  headers : List (String × String)
deriving DecidableEq

/-- Mirrors `FConnection::StartWebSocket` (Connection.cpp line 167): the
websocket is created against `ws://` + Host, with an empty sub-protocol
(`FString()`) and the Connection's configured header map. -/
def startWebSocket (host : String) (headers : List (String × String)) : FWebSocket :=
  ⟨"ws://" ++ host, "", headers⟩

/-- State left behind by one run of the negotiate-response handler:
`connectionId` is the value stored into `FConnection::ConnectionId` when an
assignment ran, and `transport` is the websocket construction requested by
`StartWebSocket` when control reached it. -/
structure NegotiateOutcome where
  connectionId : Option String
  transport : Option FWebSocket
deriving DecidableEq

/-- Outcome of every early `return` in `OnNegotiateResponse`: nothing is
stored and no transport is constructed. -/
def abortOutcome : NegotiateOutcome := ⟨none, none⟩

/-- Mirrors `FConnection::OnNegotiateResponse` (Connection.cpp lines 84-163).
`parsed` is the result of `FJsonSerializer::Deserialize` on the response
body: `some o` when the body parses to a JSON object with fields `o`,
`none` on parse failure. The branch order follows the source exactly:
status code, parse, `error`, `ProtocolVersion`, string-typed `url`,
array-typed `availableTransports` compatibility gate, then the
`connectionId` / `connectionToken` assignments and `StartWebSocket`. -/
def onNegotiateResponse (host : String) (headers : List (String × String))
    (responseCode : Int) (parsed : Option Jobj) : NegotiateOutcome :=
  if responseCode ≠ 200 then
    abortOutcome
  else
    match parsed with
    | none => abortOutcome
    | some o =>
      if hasField o "error" then
        -- source: empty branch (`// TODO: error`), so the validation chain
        -- in the `else` never runs and the handler falls through to its end
        abortOutcome
      else if hasField o "ProtocolVersion" then
        abortOutcome
      else if hasTypedFieldString o "url" then
        -- source extracts `url` and `accessToken` and returns (redirect TODO)
        abortOutcome
      else if hasTypedFieldArray o "availableTransports" &&
              !availableTransportsCompatible (getArrayField o "availableTransports") then
        abortOutcome
      else
        let cid0 : Option String :=
          if hasTypedFieldString o "connectionId" then
            some (getStringField o "connectionId")
          else none
        let cid : Option String :=
          if hasTypedFieldString o "connectionToken" then
            some (getStringField o "connectionToken")
          else cid0
        ⟨cid, some (startWebSocket host headers)⟩

/-- The HTTP request as configured by `FConnection::Negotiate`
(Connection.cpp lines 74-82): the fields the Connection sets on the
request it creates and processes. -/
structure HttpRequest where
  verb : String
  url : String
  headers : List (String × String)
deriving DecidableEq

/-- Mirrors `FConnection::Negotiate`: one request is created; the source
sets the verb and the URL and processes the request. It never calls
`SetHeader`, so the Connection attaches none of its configured `Headers`
to the negotiate request (the `headers` parameter stands for the
`Headers` member, which `Negotiate` does not read). -/
def negotiate (host : String) (headers : List (String × String)) : HttpRequest :=
  ⟨"POST", "http://" ++ host ++ "/negotiate?negotiateVersion=1", []⟩

/-- A live transport handle as seen by `Send`/`Close`/`IsConnected`:
validity of the shared pointer plus what `IWebSocket::IsConnected` reports.
`none` models an invalid (absent) handle. -/
structure WebSocketHandle where
  reportsConnected : Bool
deriving DecidableEq

/-- Effect of one `FConnection::Send` call: the data forwarded to
`IWebSocket::Send` (if any) and whether the error log fired. -/
structure SendResult where
  forwardedData : Option String
  loggedError : Bool
deriving DecidableEq

/-- Mirrors `FConnection::Send` (Connection.cpp lines 30-40): the data is
forwarded whenever `Connection.IsValid()`, regardless of what the handle
reports about being connected; otherwise the call only logs. -/
def send (transport : Option WebSocketHandle) (data : String) : SendResult :=
  match transport with
  | some _ => ⟨some data, false⟩
  | none => ⟨none, true⟩

/-- Effect of one `FConnection::Close` call: the (code, reason) forwarded to
`IWebSocket::Close` (if any) and whether the error log fired. -/
structure CloseResult where
  forwardedClose : Option (Int × String)
  loggedError : Bool
deriving DecidableEq

/-- Mirrors `FConnection::Close` (Connection.cpp lines 42-52). -/
def close (transport : Option WebSocketHandle) (code : Int) (reason : String) : CloseResult :=
  match transport with
  | some _ => ⟨some (code, reason), false⟩
  | none => ⟨none, true⟩

/-- Mirrors `FConnection::IsConnected` (Connection.cpp lines 25-28):
`Connection.IsValid() && Connection->IsConnected()`. -/
def isConnected (transport : Option WebSocketHandle) : Bool :=
  match transport with
  | some h => h.reportsConnected
  | none => false

end SignalR

/-! Helper lemmas shared by the claim theorems. -/

namespace SignalR

/-- A field that is absent entirely is in particular not an array-typed field. -/
theorem hasTypedFieldArray_eq_false_of_not_hasField (o : Jobj) (n : String)
    (h : hasField o n = false) : hasTypedFieldArray o n = false := by
  unfold hasField at h
  unfold hasTypedFieldArray
  cases hg : getField o n with
  | none => rfl
  | some v => rw [hg] at h; simp at h

/-- When every validation gate passes, the handler stores the identifier
computed from `connectionToken` / `connectionId` and requests the websocket. -/
theorem onNegotiateResponse_ok (host : String) (hs : List (String × String)) (o : Jobj)
    (he : hasField o "error" = false)
    (hp : hasField o "ProtocolVersion" = false)
    (hu : hasTypedFieldString o "url" = false)
    (hc : (hasTypedFieldArray o "availableTransports" &&
           !availableTransportsCompatible (getArrayField o "availableTransports")) = false) :
    onNegotiateResponse host hs 200 (some o) =
      ⟨(if hasTypedFieldString o "connectionToken" then
          some (getStringField o "connectionToken")
        else if hasTypedFieldString o "connectionId" then
          some (getStringField o "connectionId")
        else none),
       some (startWebSocket host hs)⟩ := by
  unfold onNegotiateResponse
  simp [he, hp, hu, hc]

/-- A status-200 run of the handler either aborts or reaches the final
branch that stores an identifier and requests the websocket. -/
theorem onNegotiateResponse_200_cases (host : String) (hs : List (String × String)) (o : Jobj) :
    onNegotiateResponse host hs 200 (some o) = abortOutcome ∨
    onNegotiateResponse host hs 200 (some o) =
      ⟨(if hasTypedFieldString o "connectionToken" then
          some (getStringField o "connectionToken")
        else if hasTypedFieldString o "connectionId" then
          some (getStringField o "connectionId")
        else none),
       some (startWebSocket host hs)⟩ := by
  by_cases he : hasField o "error" = true
  · left; unfold onNegotiateResponse; simp [he]
  · by_cases hp : hasField o "ProtocolVersion" = true
    · left; unfold onNegotiateResponse; simp [he, hp]
    · by_cases hu : hasTypedFieldString o "url" = true
      · left; unfold onNegotiateResponse; simp [he, hp, hu]
      · by_cases hg : (hasTypedFieldArray o "availableTransports" &&
            !availableTransportsCompatible (getArrayField o "availableTransports")) = true
        · left; unfold onNegotiateResponse; simp [he, hp, hu, hg]
        · right
          exact onNegotiateResponse_ok host hs o
            (by simpa using he) (by simpa using hp) (by simpa using hu) (by simpa using hg)

/-- When the `availableTransports` gate fires (array present, no compatible
entry), the handler aborts. -/
theorem onNegotiateResponse_incompatible_aborts (host : String)
    (hs : List (String × String)) (o : Jobj)
    (he : hasField o "error" = false)
    (hp : hasField o "ProtocolVersion" = false)
    (hu : hasTypedFieldString o "url" = false)
    (h : (hasTypedFieldArray o "availableTransports" &&
          !availableTransportsCompatible (getArrayField o "availableTransports")) = true) :
    onNegotiateResponse host hs 200 (some o) = abortOutcome := by
  unfold onNegotiateResponse
  simp [he, hp, hu, h]

end SignalR

namespace SignalR

/-- C1: for every negotiate response whose HTTP status code is not 200, the
handler aborts independently of the body's parse result: the transport
handle stays absent and no connection identifier is stored. -/
theorem negotiate_non200_aborts (host : String) (hs : List (String × String))
    (code : Int) (parsed : Option Jobj) (h : code ≠ 200) :
    (onNegotiateResponse host hs code parsed).transport = none ∧
    (onNegotiateResponse host hs code parsed).connectionId = none := by
  unfold onNegotiateResponse
  simp [h, abortOutcome]

/-- Witness for C1: a status-500 response whose body would otherwise validate
still yields no transport and no stored identifier. -/
theorem negotiate_non200_aborts_witness :
    (onNegotiateResponse "example.com" [] 500
      (some [("connectionId", Json.str "abc123")])).transport = none ∧
    (onNegotiateResponse "example.com" [] 500
      (some [("connectionId", Json.str "abc123")])).connectionId = none :=
  negotiate_non200_aborts "example.com" [] 500
    (some [("connectionId", Json.str "abc123")]) (by decide)

/-- C2: for every status-200 response parsed to a JSON object that contains a
`ProtocolVersion` field, no transport is ever constructed, whatever other
fields the object carries. -/
theorem protocolVersion_blocks_transport (host : String) (hs : List (String × String))
    (o : Jobj) (h : hasField o "ProtocolVersion" = true) :
    (onNegotiateResponse host hs 200 (some o)).transport = none := by
  unfold onNegotiateResponse
  by_cases he : hasField o "error" = true
  · simp [he, abortOutcome]
  · simp [he, h, abortOutcome]

/-- Witness for C2: a legacy response carrying `ProtocolVersion` next to a
valid `url`, `availableTransports`, `connectionId` and `connectionToken`
still constructs no transport. -/
theorem protocolVersion_blocks_transport_witness :
    (onNegotiateResponse "example.com" [] 200
      (some [("ProtocolVersion", Json.str "1.5"),
             ("url", Json.str "other.example.com"),
             ("availableTransports",
               Json.arr [Json.obj [("transport", Json.str "WebSockets"),
                                   ("transferFormats", Json.arr [Json.str "Text"])]]),
             ("connectionId", Json.str "abc123"),
             ("connectionToken", Json.str "tok")])).transport = none :=
  protocolVersion_blocks_transport "example.com" []
    [("ProtocolVersion", Json.str "1.5"),
     ("url", Json.str "other.example.com"),
     ("availableTransports",
       Json.arr [Json.obj [("transport", Json.str "WebSockets"),
                           ("transferFormats", Json.arr [Json.str "Text"])]]),
     ("connectionId", Json.str "abc123"),
     ("connectionToken", Json.str "tok")] (by decide)

/-- C10: for every status-200 response parsed to a JSON object containing an
`error` field, the handler leaves the state unchanged: no transport and no
stored identifier, even when valid identifier and transport fields are
also present. -/
theorem error_field_aborts (host : String) (hs : List (String × String))
    (o : Jobj) (herr : hasField o "error" = true) :
    (onNegotiateResponse host hs 200 (some o)).transport = none ∧
    (onNegotiateResponse host hs 200 (some o)).connectionId = none := by
  unfold onNegotiateResponse
  simp [herr, abortOutcome]

/-- Witness for C10: an `error` field next to valid `availableTransports`,
`connectionId` and `connectionToken` fields still aborts with nothing stored. -/
theorem error_field_aborts_witness :
    (onNegotiateResponse "example.com" [] 200
      (some [("error", Json.str "boom"),
             ("availableTransports",
               Json.arr [Json.obj [("transport", Json.str "WebSockets"),
                                   ("transferFormats", Json.arr [Json.str "Text"])]]),
             ("connectionId", Json.str "abc123"),
             ("connectionToken", Json.str "tok")])).transport = none ∧
    (onNegotiateResponse "example.com" [] 200
      (some [("error", Json.str "boom"),
             ("availableTransports",
               Json.arr [Json.obj [("transport", Json.str "WebSockets"),
                                   ("transferFormats", Json.arr [Json.str "Text"])]]),
             ("connectionId", Json.str "abc123"),
             ("connectionToken", Json.str "tok")])).connectionId = none :=
  error_field_aborts "example.com" []
    [("error", Json.str "boom"),
     ("availableTransports",
       Json.arr [Json.obj [("transport", Json.str "WebSockets"),
                           ("transferFormats", Json.arr [Json.str "Text"])]]),
     ("connectionId", Json.str "abc123"),
     ("connectionToken", Json.str "tok")] (by decide)

end SignalR

namespace SignalR

/-- C3: when the response object carries an array-typed `availableTransports`
field, a transport is constructed only if some entry is an object with
`transport = "WebSockets"` and a `transferFormats` array containing the
string `"Text"`, and when no entry qualifies the handler aborts with no
transport; when `availableTransports` is omitted entirely (and no earlier
gate fires), the check is skipped and the transport is constructed. -/
theorem availableTransports_gate (host : String) (hs : List (String × String)) (o : Jobj) :
    (hasTypedFieldArray o "availableTransports" = true →
      ((onNegotiateResponse host hs 200 (some o)).transport.isSome = true →
        availableTransportsCompatible (getArrayField o "availableTransports") = true) ∧
      (availableTransportsCompatible (getArrayField o "availableTransports") = false →
        (onNegotiateResponse host hs 200 (some o)).transport = none)) ∧
    (hasField o "availableTransports" = false →
      hasField o "error" = false →
      hasField o "ProtocolVersion" = false →
      hasTypedFieldString o "url" = false →
      (onNegotiateResponse host hs 200 (some o)).transport = some (startWebSocket host hs)) := by
  constructor
  · intro harr
    have aborts : availableTransportsCompatible (getArrayField o "availableTransports") = false →
        (onNegotiateResponse host hs 200 (some o)).transport = none := by
      intro hcomp
      unfold onNegotiateResponse
      by_cases he : hasField o "error" = true
      · simp [he, abortOutcome]
      · by_cases hp : hasField o "ProtocolVersion" = true
        · simp [he, hp, abortOutcome]
        · by_cases hu : hasTypedFieldString o "url" = true
          · simp [he, hp, hu, abortOutcome]
          · simp [he, hp, hu, harr, hcomp, abortOutcome]
    refine ⟨?_, aborts⟩
    intro hsome
    by_cases hcomp : availableTransportsCompatible (getArrayField o "availableTransports") = true
    · exact hcomp
    · have hfalse : availableTransportsCompatible (getArrayField o "availableTransports") = false := by
        simpa using hcomp
      rw [aborts hfalse] at hsome
      simp at hsome
  · intro habs he hp hu
    have harr : hasTypedFieldArray o "availableTransports" = false :=
      hasTypedFieldArray_eq_false_of_not_hasField o "availableTransports" habs
    rw [onNegotiateResponse_ok host hs o he hp hu (by simp [harr])]

/-- Witness for C3: a response advertising only `LongPolling` constructs no
transport. -/
theorem availableTransports_gate_witness :
    (onNegotiateResponse "example.com" [] 200
      (some [("availableTransports",
               Json.arr [Json.obj [("transport", Json.str "LongPolling"),
                                   ("transferFormats", Json.arr [Json.str "Text"])]])])).transport
      = none :=
  ((availableTransports_gate "example.com" []
      [("availableTransports",
         Json.arr [Json.obj [("transport", Json.str "LongPolling"),
                             ("transferFormats", Json.arr [Json.str "Text"])]])]).1
    (by decide)).2 (by decide)

end SignalR

namespace SignalR

/-- C4 counterexample: the claim says the negotiate request's headers equal
the configured header map; for a Connection configured with an
`Authorization` header, the request carries no headers at all, so the claim
fails. -/
theorem negotiate_headers_counterexample :
    ¬ ((negotiate "example.com" [("Authorization", "Bearer token")]).headers =
       [("Authorization", "Bearer token")]) := by decide

/-- C4 amended: `connect()` issues exactly one HTTP POST whose URL is
`http://` + host + `/negotiate?negotiateVersion=1`, but the configured
header map is not attached to the negotiate request: the Connection sets
no headers on it. -/
theorem negotiate_request_shape (host : String) (hs : List (String × String)) :
    (negotiate host hs).verb = "POST" ∧
    (negotiate host hs).url = "http://" ++ host ++ "/negotiate?negotiateVersion=1" ∧
    (negotiate host hs).headers = [] :=
  ⟨rfl, rfl, rfl⟩

/-- C5 counterexample: the claim says a send while a transport handle is
present but not reporting connected is a no-op issuing no external call;
the code forwards the data to the transport whenever the handle is valid,
so at a present-but-unconnected handle the forwarded data is not `none`. -/
theorem send_not_connected_counterexample :
    ¬ ((send (some (WebSocketHandle.mk false)) "payload").forwardedData = none) := by
  decide

/-- C5 amended: `send(data)` forwards the data to the transport unmodified
whenever the transport handle is present, regardless of whether the
transport reports itself connected; only when no transport handle exists is
the call a logged no-op that drops the data, and the call never raises a
propagating error. -/
theorem send_forwards_when_handle_present (t : Option WebSocketHandle) (data : String) :
    (send t data).forwardedData = (if t.isSome then some data else none) ∧
    (send t data).loggedError = !t.isSome := by
  cases t <;> simp [send]

/-- C6: for every successfully validated response (one whose run constructs a
transport), if both `connectionId` and `connectionToken` are string fields
the stored identifier is the `connectionToken` value (read last, it wins);
if exactly one of the two is a string field, its value is stored. -/
theorem connectionToken_precedence (host : String) (hs : List (String × String)) (o : Jobj)
    (hok : (onNegotiateResponse host hs 200 (some o)).transport.isSome = true) :
    (hasTypedFieldString o "connectionId" = true →
     hasTypedFieldString o "connectionToken" = true →
     (onNegotiateResponse host hs 200 (some o)).connectionId =
       some (getStringField o "connectionToken")) ∧
    (hasTypedFieldString o "connectionId" = true →
     hasTypedFieldString o "connectionToken" = false →
     (onNegotiateResponse host hs 200 (some o)).connectionId =
       some (getStringField o "connectionId")) ∧
    (hasTypedFieldString o "connectionId" = false →
     hasTypedFieldString o "connectionToken" = true →
     (onNegotiateResponse host hs 200 (some o)).connectionId =
       some (getStringField o "connectionToken")) := by
  rcases onNegotiateResponse_200_cases host hs o with hcase | hcase
  · rw [hcase] at hok
    simp [abortOutcome] at hok
  · refine ⟨fun _ htok => ?_, fun hid htok => ?_, fun _ htok => ?_⟩
    · rw [hcase]; simp [htok]
    · rw [hcase]; simp [hid, htok]
    · rw [hcase]; simp [htok]

/-- Witness for C6: with `connectionId = "id1"` and `connectionToken = "tok1"`
both present, the stored identifier is the token value. -/
theorem connectionToken_precedence_witness :
    (onNegotiateResponse "example.com" [] 200
      (some [("connectionId", Json.str "id1"),
             ("connectionToken", Json.str "tok1")])).connectionId = some "tok1" :=
  ((connectionToken_precedence "example.com" []
      [("connectionId", Json.str "id1"), ("connectionToken", Json.str "tok1")]
      (by decide)).1 (by decide) (by decide)).trans (by decide)

/-- C7: the end-to-end scenario where negotiate returns status 200 with body
`availableTransports = [[transport WebSockets, transferFormats [Text]]]`
and `connectionId = "abc123"`: the handler stores `"abc123"` and requests a
websocket against `ws://` + host with the configured header map and an
empty sub-protocol. -/
theorem scenarioA_transport_and_id (host : String) (hs : List (String × String)) :
    onNegotiateResponse host hs 200
      (some [("availableTransports",
               Json.arr [Json.obj [("transport", Json.str "WebSockets"),
                                   ("transferFormats", Json.arr [Json.str "Text"])]]),
             ("connectionId", Json.str "abc123")]) =
      ⟨some "abc123", some ⟨"ws://" ++ host, "", hs⟩⟩ := rfl

end SignalR

namespace SignalR

/-- C8: when `availableTransports` is present but not of JSON array type,
the compatibility check is skipped entirely: provided no earlier gate
fires, the handler proceeds and constructs the transport. -/
theorem availableTransports_nonarray_skipped (host : String) (hs : List (String × String))
    (o : Jobj)
    (hpresent : hasField o "availableTransports" = true)
    (htyped : hasTypedFieldArray o "availableTransports" = false)
    (he : hasField o "error" = false)
    (hp : hasField o "ProtocolVersion" = false)
    (hu : hasTypedFieldString o "url" = false) :
    (onNegotiateResponse host hs 200 (some o)).transport = some (startWebSocket host hs) := by
  rw [onNegotiateResponse_ok host hs o he hp hu (by simp [htyped])]

/-- Witness for C8: `availableTransports` set to a string (which advertises
no websocket at all) is ignored and a transport is still constructed. -/
theorem availableTransports_nonarray_skipped_witness :
    (onNegotiateResponse "example.org" [] 200
      (some [("availableTransports", Json.str "LongPolling")])).transport =
      some (startWebSocket "example.org" []) :=
  availableTransports_nonarray_skipped "example.org" []
    [("availableTransports", Json.str "LongPolling")]
    (by decide) (by decide) (by decide) (by decide) (by decide)

/-- C9: when `url` is present but not of JSON string type, the redirect
branch is not taken and validation continues through the compatibility and
identifier-extraction steps: provided no other gate fires, the handler
stores the identifier computed from `connectionToken` / `connectionId` and
constructs the transport. -/
theorem url_nonstring_no_redirect (host : String) (hs : List (String × String))
    (o : Jobj)
    (hpresent : hasField o "url" = true)
    (hstr : hasTypedFieldString o "url" = false)
    (he : hasField o "error" = false)
    (hp : hasField o "ProtocolVersion" = false)
    (hg : (hasTypedFieldArray o "availableTransports" &&
           !availableTransportsCompatible (getArrayField o "availableTransports")) = false) :
    onNegotiateResponse host hs 200 (some o) =
      ⟨(if hasTypedFieldString o "connectionToken" then
          some (getStringField o "connectionToken")
        else if hasTypedFieldString o "connectionId" then
          some (getStringField o "connectionId")
        else none),
       some (startWebSocket host hs)⟩ :=
  onNegotiateResponse_ok host hs o he hp hstr hg

/-- Witness for C9: `url` set to the number 5 does not trigger the redirect
branch; the handler stores the `connectionId` value and constructs the
transport. -/
theorem url_nonstring_no_redirect_witness :
    onNegotiateResponse "example.net" [] 200
      (some [("url", Json.number 5), ("connectionId", Json.str "abc123")]) =
      ⟨some "abc123", some (startWebSocket "example.net" [])⟩ :=
  (url_nonstring_no_redirect "example.net" []
     [("url", Json.number 5), ("connectionId", Json.str "abc123")]
     (by decide) (by decide) (by decide) (by decide) (by decide)).trans (by decide)

end SignalR
